import Mathlib

/-!
Verification of the perf-doctor protocol client and collector orchestration
layer.  The definitions below are a shallow embedding of
`src/src/infrastructure/devtools/client.py` (class `DevToolsClient`),
`src/src/collectors/base/manager.py` (class `CollectorManager`),
`src/src/collectors/base/collector.py` (class `BaseCollector`) and, where a
claim cites it, the historical `src/modules/collectors/collector_manager.py`.
Asynchronous waiting is made explicit by an outcome parameter describing how
the awaited future was settled; each embedded function mirrors the control
flow of its Python source line by line.
-/

namespace PerfDoctor

/-- The state of one `asyncio.Future` stored in `DevToolsClient.pending_commands`:
still awaited, resolved via `future.set_result(data.get("result", {}))`
(client.py line 120), or rejected via `future.set_exception(Exception(data["error"]))`
(client.py line 117).  Reply payloads are modelled as string association lists. -/
inductive FutureState where
  | waiting
  | resolved (result : List (String × String))
  | rejected (error : String)
  deriving DecidableEq, Repr

/-- The pending-command table `self.pending_commands : Dict[int, asyncio.Future]`,
modelled as an insertion-ordered association list with dict semantics. -/
def PendingTable := List (Nat × FutureState)
  deriving DecidableEq

/-- Dict read: `self.pending_commands[command_id]` guarded by
`command_id in self.pending_commands` (client.py lines 112-113). -/
def pcLookup : List (Nat × FutureState) → Nat → Option FutureState
  | [], _ => none
  | p :: r, k => if p.1 = k then some p.2 else pcLookup r k

/-- Dict write: `self.pending_commands[command_id] = future` (client.py line 74);
replaces an existing binding in place, otherwise appends at the end
(Python dicts preserve insertion order). -/
def pcSet : List (Nat × FutureState) → Nat → FutureState → List (Nat × FutureState)
  | [], k, v => [(k, v)]
  | p :: r, k, v => if p.1 = k then (k, v) :: r else p :: pcSet r k v

/-- Dict removal: `self.pending_commands.pop(command_id, None)`
(client.py lines 85 and 88); removing an absent key is a no-op. -/
def pcPop : List (Nat × FutureState) → Nat → List (Nat × FutureState)
  | [], _ => []
  | p :: r, k => if p.1 = k then pcPop r k else p :: pcPop r k

/-- Connection state of `DevToolsClient`: the monotonically increasing command
id counter (`self.command_id`), the pending-command table and the enabled
domain set `self.enabled_domains` (client.py lines 24-28). -/
structure DTState where
  command_id : Nat
  pending_commands : List (Nat × FutureState)
  enabled_domains : List String
  deriving DecidableEq

/-- One decoded inbound frame, following the dispatch in
`listen_for_events` (client.py lines 104-134): a frame with an `id` key is a
command reply (carrying either an `error` or a `result`), a frame with a
`method` key (and no `id`) is an event, and anything else — including a
frame that fails JSON decoding — is logged and skipped. -/
inductive InboundMessage where
  | reply (id : Nat) (error : Option String) (result : List (String × String))
  | event (method : String) (params : List (String × String))
  | malformed (raw : String)
  deriving DecidableEq

/-- Reply handling in the dispatch loop (client.py lines 110-120): look the id
up in the pending table; if an entry exists and its future is not yet done,
settle it — `set_exception` when the frame carries an `error` key, otherwise
`set_result` — and leave everything else untouched.  A reply whose id has no
entry, or whose future is already done, is silently ignored. -/
def handle_reply (pending : List (Nat × FutureState)) (id : Nat)
    (error : Option String) (result : List (String × String)) :
    List (Nat × FutureState) :=
  match pcLookup pending id with
  | none => pending
  | some fut =>
    if fut = FutureState.waiting then
      match error with
      | some e => pcSet pending id (FutureState.rejected e)
      | none => pcSet pending id (FutureState.resolved result)
    else pending

/-- One iteration of the `async for message in self.websocket` body
(client.py lines 104-134).  Event frames are forwarded to
`self.events.handle_event`, which never touches the pending table; malformed
frames are logged and skipped. -/
def listen_step (pending : List (Nat × FutureState)) (msg : InboundMessage) :
    List (Nat × FutureState) :=
  match msg with
  | .reply id error result => handle_reply pending id error result
  | .event _ _ => pending
  | .malformed _ => pending

/-- How the inbound dispatch loop terminates: the socket was closed
(`websockets.exceptions.ConnectionClosed`, client.py line 136) or the read
raised some other exception (client.py line 138). -/
inductive LoopEnd where
  | socketClosed
  | readError (msg : String)
  deriving DecidableEq

/-- The loop-termination handlers of `listen_for_events`
(client.py lines 136-139).  Both `except` arms only call the logger: the
pending-command table is not drained, no future is settled. -/
def loop_termination (e : LoopEnd) (pending : List (Nat × FutureState)) :
    List (Nat × FutureState) :=
  match e with
  | .socketClosed => pending
  | .readError _ => pending

/-- `DevToolsClient.listen_for_events` (client.py lines 95-139), as its effect
on the pending table: process the delivered frames in order, then run the
termination handler for whichever exception ended the read loop. -/
def listen_for_events (pending : List (Nat × FutureState))
    (msgs : List InboundMessage) (e : LoopEnd) : List (Nat × FutureState) :=
  loop_termination e (msgs.foldl listen_step pending)

/-- How the awaited portion of one `send_command` call turns out:
`websocket.send` raised, a result reply arrived, an error reply arrived, or
`asyncio.wait_for` hit its timeout. -/
inductive SendOutcome where
  | sendRaised (msg : String)
  | replied (result : List (String × String))
  | repliedError (err : String)
  | timedOut
  deriving DecidableEq

/-- The two exception types `send_command` can construct:
`DevToolsException` and `TimeoutException` (core/exceptions.py), both direct
subclasses of `PerfDoctorException`, carrying their message string. -/
inductive CommandError where
  | devToolsException (msg : String)
  | timeoutException (msg : String)
  deriving DecidableEq

/-- The `TimeoutException` message built at client.py line 83. -/
def timeoutMsg (method : String) (id : Nat) : String :=
  "命令超时: " ++ method ++ " (ID: " ++ toString id ++ ")"

/-- The `DevToolsException` message built at client.py line 89. -/
def sendFailMsg (method : String) (cause : String) : String :=
  "发送命令失败: " ++ method ++ ", 错误: " ++ cause

/-- The serialized command frame `{"id": ..., "method": ..., "params": ...}`
built at client.py lines 66-70 and written to the socket at line 76. -/
structure Command where
  id : Nat
  method : String
  params : List (String × String)
  deriving DecidableEq

/-- What the inner `try` of `send_command` (client.py lines 79-85) produces:
the awaited result, or the exception that escapes it — the
`TimeoutException` raised at line 83, or the error-reply `Exception`
re-raised by `await future`.  The `finally` at lines 84-85 pops the pending
entry on every one of these paths. -/
inductive AwaitResult where
  | ok (result : List (String × String))
  | raisedTimeout (msg : String)
  | raisedError (err : String)
  deriving DecidableEq

/-- The inner await of `send_command` (client.py lines 79-85). -/
def inner_wait (method : String) (cid : Nat) (o : SendOutcome) : AwaitResult :=
  match o with
  | .sendRaised m => .raisedError m
  | .replied r => .ok r
  | .repliedError e => .raisedError e
  | .timedOut => .raisedTimeout (timeoutMsg method cid)

/-- The string `str(e)` of an escaped inner exception, as interpolated into
the `DevToolsException` message at client.py line 89. -/
def AwaitResult.message : AwaitResult → String
  | .ok _ => ""
  | .raisedTimeout m => m
  | .raisedError e => e

/-- The outer `except Exception as e` of `send_command` (client.py
lines 87-89): every exception escaping the inner block — the explicitly
raised `TimeoutException` included — is caught and re-raised as
`DevToolsException("发送命令失败: ...")`. -/
def outer_wrap (method : String) (a : AwaitResult) :
    Except CommandError (List (String × String)) :=
  match a with
  | .ok r => .ok r
  | other => .error (.devToolsException (sendFailMsg method other.message))

/-- `DevToolsClient.send_command` (client.py lines 59-89): allocate the next
command id (`_get_next_command_id`, lines 54-57), create the pending entry
(line 74), send, await the reply under the timeout, and on every exit path
remove the pending entry (the `finally` at line 85, and the pop in the outer
handler at line 88 — idempotent when the entry is already gone).  Returns
the caller-visible result together with the successor connection state. -/
def send_command (s : DTState) (method : String) (params : List (String × String))
    (o : SendOutcome) :
    Except CommandError (List (String × String)) × DTState :=
  let command : Command :=
    { id := s.command_id + 1, method := method, params := params }
  let inflight := pcSet s.pending_commands command.id FutureState.waiting
  let res := outer_wrap method (inner_wait method command.id o)
  (res, { command_id := command.id, pending_commands := pcPop inflight command.id,
          enabled_domains := s.enabled_domains })

/-- The pending table as it stands while one `send_command` call is awaiting
its reply: right after the insertion at client.py line 74.  The new entry's
key is the freshly allocated command id. -/
def send_command_inflight (s : DTState) : List (Nat × FutureState) :=
  pcSet s.pending_commands (s.command_id + 1) FutureState.waiting

/-- `DevToolsClient.enable_domain` (client.py lines 141-153): a domain already
in `self.enabled_domains` short-circuits to `True` with no wire traffic;
otherwise one `send_command("<domain>.enable")` is issued — on a reply the
domain is added to the set and `True` returned (in this client
`send_command` never returns `None`, so the `else` arm at lines 151-153 is
unreachable), while an exception from `send_command` propagates without
touching the set.  The third component counts the wire commands issued. -/
def enable_domain (s : DTState) (domain : String) (o : SendOutcome) :
    Except CommandError Bool × DTState × Nat :=
  if domain ∈ s.enabled_domains then (.ok true, s, 0)
  else
    match send_command s (domain ++ ".enable") [] o with
    | (.ok _, s1) =>
        (.ok true,
         { s1 with enabled_domains := s1.enabled_domains ++ [domain] }, 1)
    | (.error e, s1) => (.error e, s1, 1)

/-- Key lookup in a reply payload, used for the check
`if not response or "frameId" not in response` (client.py line 175): an empty
(falsy) payload has no keys, so both failing conditions collapse into the
lookup returning `none`. -/
def payloadFind : List (String × String) → String → Option String
  | [], _ => none
  | p :: r, k => if p.1 = k then some p.2 else payloadFind r k

/-- State of the one-shot page-load future `self._page_loaded`
(client.py line 159): pending, resolved by the event handler
(`set_result(True)`, line 165), or cancelled by `asyncio.wait_for` when the
wait at line 183 times out. -/
inductive OneShot where
  | pending
  | resolved
  | cancelled
  deriving DecidableEq, Repr

/-- `future.done()`: a resolved or cancelled future is done. -/
def OneShot.done : OneShot → Bool
  | .pending => false
  | .resolved => true
  | .cancelled => true

/-- The `on_load_event` handler defined inside `navigate_to`
(client.py lines 162-165): it resolves the page-load future with `True`
only when the future is not already done; on a done future it is a no-op. -/
def on_load_event (f : OneShot) : OneShot :=
  if f.done then f else OneShot.resolved

/-- The side-effecting steps of `navigate_to`, in program order. -/
inductive NavAction where
  | createWaitFuture
  | subscribeLoadHandler (event : String)
  | issueNavigateCommand (url : String)
  | awaitLoad
  deriving DecidableEq, Repr

/-- The order in which `navigate_to` performs its steps
(client.py lines 159, 168, 173, 183): create the wait future, register the
`Page.loadEventFired` handler, send `Page.navigate`, await the load. -/
def navigate_to_actions (url : String) : List NavAction :=
  [NavAction.createWaitFuture,
   NavAction.subscribeLoadHandler "Page.loadEventFired",
   NavAction.issueNavigateCommand url,
   NavAction.awaitLoad]

/-- `DevToolsClient.navigate_to` (client.py lines 155-192): send
`Page.navigate`; a raised exception or a response without `"frameId"`
returns `False`; otherwise wait for the page-load future — fired before the
deadline returns `True`, no event by the deadline times the wait out
(cancelling the future) and returns `False`.  Returns the outcome, the final
state of the one-shot future, and the successor connection state. -/
def navigate_to (s : DTState) (url : String) (o : SendOutcome)
    (eventBeforeDeadline : Bool) : Bool × OneShot × DTState :=
  let pl0 := OneShot.pending
  match send_command s "Page.navigate" [("url", url)] o with
  | (.error _, s1) => (false, pl0, s1)
  | (.ok response, s1) =>
    if payloadFind response "frameId" = none then (false, pl0, s1)
    else if eventBeforeDeadline then (true, on_load_event pl0, s1)
    else (false, OneShot.cancelled, s1)

/-! ## Collector layer
Embedding of `src/src/collectors/base/collector.py` (class `BaseCollector`),
`src/src/core/types.py` (dataclass `CollectorResult`) and
`src/src/collectors/base/manager.py` (class `CollectorManager`); the
historical manager `src/modules/collectors/collector_manager.py` is embedded
separately where a claim cites it. -/

/-- `CollectorResult` (core/types.py): collected data with an optional error
string; `data` is modelled as a string association list and the float
timestamp as a natural clock value. -/
structure CollectorResult where
  type : String
  data : List (String × String)
  timestamp : Nat
  error : Option String
  deriving DecidableEq, Repr

/-- How one collector's `setup()` coroutine behaves when awaited:
it returns a boolean or raises an exception with the given message. -/
inductive SetupBehavior where
  | returns (b : Bool)
  | raises (msg : String)
  deriving DecidableEq, Repr

/-- How one collector's `collect()` coroutine behaves when awaited:
it returns a `CollectorResult` (whose `error` field may or may not be set)
or raises an exception with the given message. -/
inductive CollectBehavior where
  | returns (r : CollectorResult)
  | raises (msg : String)
  deriving DecidableEq, Repr

/-- A registered collector as the manager sees it: its `name`, its `enabled`
flag (collector.py line 23, flipped by `enable`/`disable`), and the
behavior of its abstract `setup`/`collect` methods. -/
structure Collector where
  name : String
  enabled : Bool
  setupBehavior : SetupBehavior
  collectBehavior : CollectBehavior
  deriving DecidableEq, Repr

/-- `BaseCollector.is_enabled` (collector.py lines 56-58). -/
def Collector.is_enabled (c : Collector) : Bool := c.enabled

/-- `BaseCollector.enable` (collector.py lines 46-49). -/
def Collector.enable (c : Collector) : Collector := { c with enabled := true }

/-- `BaseCollector.disable` (collector.py lines 51-54). -/
def Collector.disable (c : Collector) : Collector := { c with enabled := false }

/-- `BaseCollector._create_result` (collector.py lines 77-84):
builds a `CollectorResult` typed `"<name lowercased>_data"` stamped with the
current clock. -/
def create_result (name : String) (now : Nat) (data : List (String × String))
    (error : Option String) : CollectorResult :=
  { type := name.toLower ++ "_data", data := data, timestamp := now,
    error := error }

/-- `CollectorManager.setup_all_collectors` (manager.py lines 40-58): iterate
over every registered collector — the `enabled` flag is not consulted —
awaiting `setup()`; a collector whose setup returns `True` is enabled and the
loop continues; a setup returning `False` or raising makes the method return
`False` at once, leaving the remaining collectors untouched.  Returns the
overall result, the updated collector registry, and the names of the
collectors whose `setup()` was actually invoked, in invocation order. -/
def setup_all_collectors : List Collector → Bool × List Collector × List String
  | [] => (true, [], [])
  | c :: rest =>
    match c.setupBehavior with
    | .returns true =>
      ((setup_all_collectors rest).1,
       c.enable :: (setup_all_collectors rest).2.1,
       c.name :: (setup_all_collectors rest).2.2)
    | .returns false => (false, c :: rest, [c.name])
    | .raises _ => (false, c :: rest, [c.name])

/-- Whether one iteration of `collect_all_data`'s loop counts as successful:
`collect()` returned normally (manager.py lines 72-76) — the `error` field of
the returned result is never consulted. -/
def collect_returns (c : Collector) : Bool :=
  match c.collectBehavior with
  | .returns _ => true
  | .raises _ => false

/-- One iteration of the `collect_all_data` loop (manager.py lines 68-80)
acting on the accumulator (successful count, failed count, results map): a
disabled collector is skipped by the `continue` at line 70; a normal return
stores the result and bumps the success count; a raised exception stores
`_create_result({}, str(e))` and bumps the failure count. -/
def collect_step (now : Nat) (acc : Nat × Nat × List (String × CollectorResult))
    (c : Collector) : Nat × Nat × List (String × CollectorResult) :=
  if c.is_enabled then
    match c.collectBehavior with
    | .returns r => (acc.1 + 1, acc.2.1, acc.2.2 ++ [(c.name, r)])
    | .raises e =>
        (acc.1, acc.2.1 + 1,
         acc.2.2 ++ [(c.name, create_result c.name now [] (some e))])
  else acc

/-- The `summary` block `collect_all_data` returns (manager.py lines 84-93). -/
structure CollectionSummary where
  total_collectors : Nat
  enabled_collectors : Nat
  successful_collections : Nat
  failed_collections : Nat
  collection_time : Nat
  deriving DecidableEq, Repr

/-- `CollectorManager.collect_all_data` (manager.py lines 60-93): run the
collection loop over the registry and assemble the summary and the results
map (keyed by collector name, registry names being unique dict keys). -/
def collect_all_data (cs : List Collector) (now : Nat) :
    CollectionSummary × List (String × CollectorResult) :=
  let folded := cs.foldl (collect_step now) (0, 0, [])
  ({ total_collectors := cs.length,
     enabled_collectors := (cs.filter Collector.is_enabled).length,
     successful_collections := folded.1,
     failed_collections := folded.2.1,
     collection_time := now }, folded.2.2)

/-- Whether one collector's `setup()` counts as successful.  Both managers
agree on this test: in the base manager a `.returns true` continues the loop
while a `False` return or a raised exception fails (manager.py lines 46-55);
in the historical manager those same cases append `(name, True)` or
`(name, False)` to `setup_results`
(modules/collectors/collector_manager.py lines 163-172). -/
def setup_success (c : Collector) : Bool :=
  match c.setupBehavior with
  | .returns b => b
  | .raises _ => false

/-- `CollectorManager.setup_all_collectors` of the historical manager
(modules/collectors/collector_manager.py lines 136-182): awaits `setup()` on
every enabled collector without short-circuiting, appending `(name, success)`
per collector, and returns `all_success` (line 175) together with the
recorded `setup_results`.  (The preceding required-domain enabling at lines
145-157 only calls `client.enable_domain` and alters no collector state.) -/
def modules_setup_all_collectors (cs : List Collector) :
    Bool × List (String × Bool) :=
  let setup_results :=
    (cs.filter Collector.is_enabled).map fun c => (c.name, setup_success c)
  (setup_results.all (fun r => r.2), setup_results)

/-! ## Pending-table lemmas -/

theorem pcSet_of_fresh (t : List (Nat × FutureState)) (k : Nat) (v : FutureState)
    (h : ∀ p ∈ t, p.1 ≠ k) : pcSet t k v = t ++ [(k, v)] := by
  induction t with
  | nil => rfl
  | cons p r ih =>
    have hp : p.1 ≠ k := h p (List.mem_cons_self p r)
    simp only [pcSet, if_neg hp, List.cons_append]
    rw [ih fun q hq => h q (List.mem_cons_of_mem p hq)]

theorem pcPop_append_of_fresh (t : List (Nat × FutureState)) (k : Nat)
    (v : FutureState) (h : ∀ p ∈ t, p.1 ≠ k) : pcPop (t ++ [(k, v)]) k = t := by
  induction t with
  | nil => simp [pcPop]
  | cons p r ih =>
    have hp : p.1 ≠ k := h p (List.mem_cons_self p r)
    have ht := ih fun q hq => h q (List.mem_cons_of_mem p hq)
    simp only [List.cons_append, pcPop, if_neg hp]
    exact congrArg (p :: ·) ht

theorem pcLookup_pcSet_self (t : List (Nat × FutureState)) (k : Nat)
    (v : FutureState) : pcLookup (pcSet t k v) k = some v := by
  induction t with
  | nil => simp [pcSet, pcLookup]
  | cons p r ih =>
    by_cases hp : p.1 = k
    · simp [pcSet, pcLookup, hp]
    · simp [pcSet, pcLookup, hp, ih]

theorem pcLookup_pcSet_ne (t : List (Nat × FutureState)) (k : Nat)
    (v : FutureState) (c : Nat) (h : c ≠ k) :
    pcLookup (pcSet t k v) c = pcLookup t c := by
  induction t with
  | nil => simp only [pcSet, pcLookup, if_neg (Ne.symm h)]
  | cons p r ih =>
    by_cases hp : p.1 = k
    · have hpc : p.1 ≠ c := fun hc => (Ne.symm h) (hp.symm.trans hc)
      simp only [pcSet, if_pos hp, pcLookup, if_neg (Ne.symm h), if_neg hpc]
    · by_cases hc : p.1 = c
      · simp only [pcSet, if_neg hp, pcLookup, if_pos hc]
      · simp only [pcSet, if_neg hp, pcLookup, if_neg hc, ih]

theorem handle_reply_resolves (t : List (Nat × FutureState)) (id : Nat)
    (res : List (String × String))
    (h : pcLookup t id = some FutureState.waiting) :
    handle_reply t id none res = pcSet t id (FutureState.resolved res) := by
  simp [handle_reply, h]

/-! ## Claim C1 -/

/-- C1, as stated, is false on the code: closing the connection (ending the
dispatch loop with `ConnectionClosed`) while one command is pending leaves
that command's entry in the pending table, still unsettled — it is not
failed with a connection-closed error and the table does not become empty
(client.py lines 136-139 only log). -/
theorem C1_counterexample :
    listen_for_events [(1, FutureState.waiting)] [] LoopEnd.socketClosed
        = [(1, FutureState.waiting)] ∧
    (listen_for_events [(1, FutureState.waiting)] [] LoopEnd.socketClosed).length
        = 1 ∧
    pcLookup (listen_for_events [(1, FutureState.waiting)] [] LoopEnd.socketClosed) 1
        = some FutureState.waiting := by
  decide

/-- C1 (amended): termination of the inbound dispatch loop — socket closed or
read error — does not drain the pending table: both `except` arms of
`listen_for_events` only log, so every remaining PendingEntry survives loop
termination unchanged and no pending command is failed with a
connection-closed error at that point (each is settled only later, by its
own timeout inside `send_command`). -/
theorem C1_no_drain_on_loop_termination (pending : List (Nat × FutureState))
    (msgs : List InboundMessage) (e : LoopEnd) :
    listen_for_events pending msgs e = msgs.foldl listen_step pending ∧
    loop_termination e pending = pending := by
  cases e <;> exact ⟨rfl, rfl⟩

/-! ## Claim C3 -/

/-- C3: evaluation of `send_command` at the failing input — a command whose
reply never arrives within the timeout.  The inner handler does raise
`TimeoutException` (client.py line 83), but the enclosing
`except Exception` (lines 87-89) catches it and re-raises
`DevToolsException("发送命令失败: ...")`, so the caller receives a
`DevToolsException`, not a timeout error; the pending entry is nevertheless
removed on this path. -/
theorem C3_timeout_surfaces_as_devtools_exception :
    inner_wait "Performance.getMetrics" 1 SendOutcome.timedOut
        = AwaitResult.raisedTimeout (timeoutMsg "Performance.getMetrics" 1) ∧
    (send_command ⟨0, [], []⟩ "Performance.getMetrics" [] SendOutcome.timedOut).1
        = Except.error (CommandError.devToolsException
            (sendFailMsg "Performance.getMetrics"
              (timeoutMsg "Performance.getMetrics" 1))) ∧
    (send_command ⟨0, [], []⟩ "Performance.getMetrics" []
        SendOutcome.timedOut).2.pending_commands = [] := by
  exact ⟨rfl, rfl, rfl⟩

/-! ## Claim C6 -/

/-- C6: on a connection whose pending ids never exceed the id counter (the
counter is bumped before each insertion, so this invariant is maintained),
every `send_command` call creates exactly one PendingEntry — the in-flight
table is the original table plus one fresh entry — and removes exactly that
entry again on every outcome (successful reply, error reply, timeout, send
failure): the final pending table equals the pre-call table, so the table
size is the number of commands sent minus the number settled, and no entry
leaks on any exit path. -/
theorem C6_pending_entry_no_leak (s : DTState) (method : String)
    (params : List (String × String)) (o : SendOutcome)
    (hfresh : ∀ p ∈ s.pending_commands, p.1 ≤ s.command_id) :
    send_command_inflight s
        = s.pending_commands ++ [(s.command_id + 1, FutureState.waiting)] ∧
    (send_command s method params o).2.pending_commands = s.pending_commands := by
  have hne : ∀ p ∈ s.pending_commands, p.1 ≠ s.command_id + 1 := fun p hp =>
    Nat.ne_of_lt (Nat.lt_succ_of_le (hfresh p hp))
  refine ⟨pcSet_of_fresh _ _ _ hne, ?_⟩
  show pcPop (pcSet s.pending_commands (s.command_id + 1) FutureState.waiting)
      (s.command_id + 1) = s.pending_commands
  rw [pcSet_of_fresh _ _ _ hne, pcPop_append_of_fresh _ _ _ hne]

/-- Witness for C6 at a concrete connection state and a successful reply. -/
theorem C6_pending_entry_no_leak_witness :
    (send_command ⟨0, [], []⟩ "Page.enable" []
        (SendOutcome.replied [])).2.pending_commands = [] :=
  (C6_pending_entry_no_leak ⟨0, [], []⟩ "Page.enable" [] (SendOutcome.replied [])
    (by decide)).2

/-! ## Claim C7 -/

/-- C7: replies are correlated by id only.  If commands `a` and `b` are both
pending and the dispatch loop processes `b`'s reply first and `a`'s reply
second, each reply settles exactly the entry whose id matches its own:
afterwards `a`'s future holds `a`'s result, `b`'s future holds `b`'s result,
and every other entry is untouched — correctness is independent of reply
arrival order. -/
theorem C7_correlation_by_id_only (t : List (Nat × FutureState)) (a b : Nat)
    (ra rb : List (String × String)) (hab : a ≠ b)
    (ha : pcLookup t a = some FutureState.waiting)
    (hb : pcLookup t b = some FutureState.waiting) :
    pcLookup ([InboundMessage.reply b none rb,
        InboundMessage.reply a none ra].foldl listen_step t) a
      = some (FutureState.resolved ra) ∧
    pcLookup ([InboundMessage.reply b none rb,
        InboundMessage.reply a none ra].foldl listen_step t) b
      = some (FutureState.resolved rb) ∧
    ∀ c, c ≠ a → c ≠ b →
      pcLookup ([InboundMessage.reply b none rb,
          InboundMessage.reply a none ra].foldl listen_step t) c = pcLookup t c := by
  have h1 : listen_step t (InboundMessage.reply b none rb)
      = pcSet t b (FutureState.resolved rb) := handle_reply_resolves t b rb hb
  have ha1 : pcLookup (pcSet t b (FutureState.resolved rb)) a
      = some FutureState.waiting := by
    rw [pcLookup_pcSet_ne t b _ a hab]; exact ha
  have h2 : listen_step (pcSet t b (FutureState.resolved rb))
        (InboundMessage.reply a none ra)
      = pcSet (pcSet t b (FutureState.resolved rb)) a (FutureState.resolved ra) :=
    handle_reply_resolves _ a ra ha1
  simp only [List.foldl_cons, List.foldl_nil]
  rw [h1, h2]
  refine ⟨pcLookup_pcSet_self _ _ _, ?_, ?_⟩
  · rw [pcLookup_pcSet_ne _ a _ b (Ne.symm hab)]
    exact pcLookup_pcSet_self _ _ _
  · intro c hca hcb
    rw [pcLookup_pcSet_ne _ a _ c hca, pcLookup_pcSet_ne _ b _ c hcb]

/-- Witness for C7: commands 1 and 2 pending, replies arriving as 2 then 1;
each future ends with its own result and a third id is untouched. -/
theorem C7_correlation_by_id_only_witness :
    pcLookup ([InboundMessage.reply 2 none [("value", "B")],
        InboundMessage.reply 1 none [("value", "A")]].foldl listen_step
        [(1, FutureState.waiting), (2, FutureState.waiting)]) 1
      = some (FutureState.resolved [("value", "A")]) ∧
    pcLookup ([InboundMessage.reply 2 none [("value", "B")],
        InboundMessage.reply 1 none [("value", "A")]].foldl listen_step
        [(1, FutureState.waiting), (2, FutureState.waiting)]) 2
      = some (FutureState.resolved [("value", "B")]) := by
  have h := C7_correlation_by_id_only
    [(1, FutureState.waiting), (2, FutureState.waiting)] 1 2
    [("value", "A")] [("value", "B")] (by decide) (by decide) (by decide)
  exact ⟨h.1, h.2.1⟩

/-! ## Claim C5 -/

/-- `send_command` never touches the enabled-domain set. -/
theorem send_command_enabled_domains (s : DTState) (method : String)
    (params : List (String × String)) (o : SendOutcome) :
    (send_command s method params o).2.enabled_domains = s.enabled_domains := rfl

/-- A call to `enable_domain` for a domain not yet in the set issues exactly
one wire command, whatever the outcome of that command. -/
theorem enable_domain_wire_count_not_mem (s : DTState) (d : String)
    (o : SendOutcome) (hd : d ∉ s.enabled_domains) :
    (enable_domain s d o).2.2 = 1 := by
  cases o <;> simp [enable_domain, hd, send_command, inner_wait, outer_wrap]

/-- C5: `enable_domain` is idempotent.  (1) A domain already in
`enabled_domains` returns success immediately with no wire round trip.
(2) After any successful `enable_domain`, a second call for the same domain
returns success with zero wire commands — so two consecutive calls of which
the first succeeds issue at most one wire command.  (3) A call for an
uncached domain issues exactly one wire command.  (4) A failed
`enable_domain` does not insert the domain, and a subsequent call retries
the wire command. -/
theorem C5_enable_domain_idempotent (s : DTState) (d : String)
    (o o2 : SendOutcome) :
    (d ∈ s.enabled_domains → enable_domain s d o = (Except.ok true, s, 0)) ∧
    (∀ res s1 n1, enable_domain s d o = (Except.ok res, s1, n1) →
        enable_domain s1 d o2 = (Except.ok true, s1, 0)) ∧
    (d ∉ s.enabled_domains → (enable_domain s d o).2.2 = 1) ∧
    (∀ err s1 n1, enable_domain s d o = (Except.error err, s1, n1) →
        s1.enabled_domains = s.enabled_domains ∧
        (d ∉ s.enabled_domains → (enable_domain s1 d o2).2.2 = 1)) := by
  by_cases hd : d ∈ s.enabled_domains
  · refine ⟨fun _ => by simp [enable_domain, hd], ?_, fun hn => absurd hd hn, ?_⟩
    · intro res s1 n1 h
      simp only [enable_domain, if_pos hd, Prod.mk.injEq, Except.ok.injEq] at h
      obtain ⟨-, h2, -⟩ := h
      subst h2
      simp [enable_domain, hd]
    · intro err s1 n1 h
      simp [enable_domain, hd] at h
  · refine ⟨fun hm => absurd hm hd, ?_,
      fun _ => enable_domain_wire_count_not_mem s d o hd, ?_⟩
    · intro res s1 n1 h
      cases o with
      | replied r =>
        simp only [enable_domain, if_neg hd, send_command, inner_wait, outer_wrap,
          Prod.mk.injEq, Except.ok.injEq] at h
        obtain ⟨-, h2, -⟩ := h
        subst h2
        have hmem : d ∈ s.enabled_domains ++ [d] := by simp
        simp [enable_domain, hmem]
      | sendRaised m =>
        simp [enable_domain, hd, send_command, inner_wait, outer_wrap] at h
      | repliedError e =>
        simp [enable_domain, hd, send_command, inner_wait, outer_wrap] at h
      | timedOut =>
        simp [enable_domain, hd, send_command, inner_wait, outer_wrap] at h
    · intro err s1 n1 h
      cases o with
      | replied r =>
        simp [enable_domain, hd, send_command, inner_wait, outer_wrap] at h
      | sendRaised m =>
        simp only [enable_domain, if_neg hd, send_command, inner_wait, outer_wrap,
          Prod.mk.injEq, Except.error.injEq] at h
        obtain ⟨-, h2, -⟩ := h
        subst h2
        exact ⟨rfl, fun hd2 => enable_domain_wire_count_not_mem _ d o2 hd2⟩
      | repliedError e =>
        simp only [enable_domain, if_neg hd, send_command, inner_wait, outer_wrap,
          Prod.mk.injEq, Except.error.injEq] at h
        obtain ⟨-, h2, -⟩ := h
        subst h2
        exact ⟨rfl, fun hd2 => enable_domain_wire_count_not_mem _ d o2 hd2⟩
      | timedOut =>
        simp only [enable_domain, if_neg hd, send_command, inner_wait, outer_wrap,
          Prod.mk.injEq, Except.error.injEq] at h
        obtain ⟨-, h2, -⟩ := h
        subst h2
        exact ⟨rfl, fun hd2 => enable_domain_wire_count_not_mem _ d o2 hd2⟩

/-- Witness for C5: an already-enabled domain short-circuits with no wire
command; a fresh domain costs exactly one wire command. -/
theorem C5_enable_domain_idempotent_witness :
    enable_domain ⟨0, [], ["Page"]⟩ "Page" SendOutcome.timedOut
        = (Except.ok true, ⟨0, [], ["Page"]⟩, 0) ∧
    (enable_domain ⟨0, [], []⟩ "Network" (SendOutcome.replied [])).2.2 = 1 := by
  constructor
  · exact (C5_enable_domain_idempotent ⟨0, [], ["Page"]⟩ "Page"
      SendOutcome.timedOut SendOutcome.timedOut).1 (by decide)
  · exact (C5_enable_domain_idempotent ⟨0, [], []⟩ "Network"
      (SendOutcome.replied []) SendOutcome.timedOut).2.2.1 (by decide)

/-! ## Claim C8 -/

/-- C8: `navigate_to` registers the page-load handler before issuing the
navigate command (`navigate_to_actions` positions 1 and 2), and the wait is
settled at most once: with a `frameId`-carrying acknowledgement, the wait
resolves `true` when the load-finished event fires before the deadline and
`false` when none does (for any command outcome, no event before the
deadline yields `false`); in both settled cases the one-shot future is done,
so a late `Page.loadEventFired` running `on_load_event` afterwards is a
no-op and never re-resolves the wait. -/
theorem C8_navigate_wait_one_shot (s : DTState) (url : String)
    (resp : List (String × String)) (o : SendOutcome)
    (hframe : payloadFind resp "frameId" ≠ none) :
    (navigate_to_actions url)[1]?
        = some (NavAction.subscribeLoadHandler "Page.loadEventFired") ∧
    (navigate_to_actions url)[2]? = some (NavAction.issueNavigateCommand url) ∧
    (navigate_to s url (SendOutcome.replied resp) true).1 = true ∧
    (navigate_to s url o false).1 = false ∧
    OneShot.done (navigate_to s url (SendOutcome.replied resp) true).2.1 = true ∧
    on_load_event (navigate_to s url (SendOutcome.replied resp) true).2.1
        = (navigate_to s url (SendOutcome.replied resp) true).2.1 ∧
    on_load_event (navigate_to s url (SendOutcome.replied resp) false).2.1
        = (navigate_to s url (SendOutcome.replied resp) false).2.1 := by
  refine ⟨rfl, rfl, ?_, ?_, ?_, ?_, ?_⟩
  · simp [navigate_to, send_command, inner_wait, outer_wrap, hframe]
  · cases o with
    | sendRaised m => rfl
    | replied r =>
      simp only [navigate_to, send_command, inner_wait, outer_wrap]
      split <;> rfl
    | repliedError e => rfl
    | timedOut => rfl
  · simp [navigate_to, send_command, inner_wait, outer_wrap, hframe,
      on_load_event, OneShot.done]
  · simp [navigate_to, send_command, inner_wait, outer_wrap, hframe,
      on_load_event, OneShot.done]
  · simp [navigate_to, send_command, inner_wait, outer_wrap, hframe,
      on_load_event, OneShot.done]

/-- Witness for C8: a concrete navigation whose acknowledgement carries a
`frameId` and whose load event fires before the deadline resolves `true`. -/
theorem C8_navigate_wait_one_shot_witness :
    (navigate_to ⟨0, [], []⟩ "https://x"
        (SendOutcome.replied [("frameId", "F1")]) true).1 = true :=
  (C8_navigate_wait_one_shot ⟨0, [], []⟩ "https://x" [("frameId", "F1")]
    SendOutcome.timedOut (by decide)).2.2.1

/-! ## Collector-manager lemmas -/

/-- The result entry `collect_all_data` stores for an enabled collector:
the returned `CollectorResult` (manager.py line 74), or
`collector._create_result({}, str(e))` when `collect()` raised
(manager.py line 80). -/
def collect_entry (now : Nat) (c : Collector) : CollectorResult :=
  match c.collectBehavior with
  | .returns r => r
  | .raises e => create_result c.name now [] (some e)

theorem collect_foldl_success (now : Nat) (cs : List Collector) (a f : Nat)
    (res : List (String × CollectorResult)) :
    (cs.foldl (collect_step now) (a, f, res)).1
      = a + ((cs.filter Collector.is_enabled).filter collect_returns).length := by
  induction cs generalizing a f res with
  | nil => simp
  | cons c rest ih =>
    cases he : c.is_enabled with
    | true =>
      cases hb : c.collectBehavior with
      | returns r =>
        have hr : collect_returns c = true := by simp [collect_returns, hb]
        rw [List.foldl_cons, show collect_step now (a, f, res) c
            = (a + 1, f, res ++ [(c.name, r)]) from by simp [collect_step, he, hb],
          ih, List.filter_cons_of_pos he, List.filter_cons_of_pos hr]
        simp only [List.length_cons]
        omega
      | raises e =>
        have hr : collect_returns c = false := by simp [collect_returns, hb]
        rw [List.foldl_cons, show collect_step now (a, f, res) c
            = (a, f + 1, res ++ [(c.name, create_result c.name now [] (some e))])
            from by simp [collect_step, he, hb],
          ih, List.filter_cons_of_pos he, List.filter_cons_of_neg (by simp [hr])]
    | false =>
      rw [List.foldl_cons, show collect_step now (a, f, res) c = (a, f, res)
          from by simp [collect_step, he], ih,
        List.filter_cons_of_neg (by simp [he])]

theorem collect_foldl_failed (now : Nat) (cs : List Collector) (a f : Nat)
    (res : List (String × CollectorResult)) :
    (cs.foldl (collect_step now) (a, f, res)).2.1
      = f + ((cs.filter Collector.is_enabled).filter
          (fun c => !collect_returns c)).length := by
  induction cs generalizing a f res with
  | nil => simp
  | cons c rest ih =>
    cases he : c.is_enabled with
    | true =>
      cases hb : c.collectBehavior with
      | returns r =>
        have hr : collect_returns c = true := by simp [collect_returns, hb]
        rw [List.foldl_cons, show collect_step now (a, f, res) c
            = (a + 1, f, res ++ [(c.name, r)]) from by simp [collect_step, he, hb],
          ih, List.filter_cons_of_pos he, List.filter_cons_of_neg (by simp [hr])]
      | raises e =>
        have hr : collect_returns c = false := by simp [collect_returns, hb]
        rw [List.foldl_cons, show collect_step now (a, f, res) c
            = (a, f + 1, res ++ [(c.name, create_result c.name now [] (some e))])
            from by simp [collect_step, he, hb],
          ih, List.filter_cons_of_pos he, List.filter_cons_of_pos (by simp [hr])]
        simp only [List.length_cons]
        omega
    | false =>
      rw [List.foldl_cons, show collect_step now (a, f, res) c = (a, f, res)
          from by simp [collect_step, he], ih,
        List.filter_cons_of_neg (by simp [he])]

theorem collect_foldl_results (now : Nat) (cs : List Collector) (a f : Nat)
    (res : List (String × CollectorResult)) :
    (cs.foldl (collect_step now) (a, f, res)).2.2
      = res ++ (cs.filter Collector.is_enabled).map
          (fun c => (c.name, collect_entry now c)) := by
  induction cs generalizing a f res with
  | nil => simp
  | cons c rest ih =>
    cases he : c.is_enabled with
    | true =>
      cases hb : c.collectBehavior with
      | returns r =>
        rw [List.foldl_cons, show collect_step now (a, f, res) c
            = (a + 1, f, res ++ [(c.name, r)]) from by simp [collect_step, he, hb],
          ih, List.filter_cons_of_pos he, List.map_cons, List.append_assoc]
        simp [collect_entry, hb]
      | raises e =>
        rw [List.foldl_cons, show collect_step now (a, f, res) c
            = (a, f + 1, res ++ [(c.name, create_result c.name now [] (some e))])
            from by simp [collect_step, he, hb],
          ih, List.filter_cons_of_pos he, List.map_cons, List.append_assoc]
        simp [collect_entry, hb]
    | false =>
      rw [List.foldl_cons, show collect_step now (a, f, res) c = (a, f, res)
          from by simp [collect_step, he], ih,
        List.filter_cons_of_neg (by simp [he])]

theorem all_snd_map_name_success (cs : List Collector) :
    ((cs.map (fun c => (c.name, setup_success c))).all fun r => r.2)
      = cs.all setup_success := by
  induction cs with
  | nil => rfl
  | cons c rest ih => simp [List.all_cons, ih]

theorem setup_all_collectors_characterization (cs : List Collector) :
    (setup_all_collectors cs).1 = cs.all setup_success ∧
    (setup_all_collectors cs).2.2
      = ((cs.takeWhile setup_success)
          ++ (cs.dropWhile setup_success).take 1).map Collector.name := by
  induction cs with
  | nil => exact ⟨rfl, rfl⟩
  | cons c rest ih =>
    cases hb : c.setupBehavior with
    | returns b =>
      cases b with
      | false =>
        have hs : setup_success c = false := by simp [setup_success, hb]
        have hs2 : ¬ setup_success c = true := by simp [hs]
        constructor
        · simp [setup_all_collectors, hb, List.all_cons, hs]
        · simp [setup_all_collectors, hb, List.takeWhile_cons_of_neg hs2,
            List.dropWhile_cons_of_neg hs2]
      | true =>
        have hs : setup_success c = true := by simp [setup_success, hb]
        constructor
        · simp [setup_all_collectors, hb, List.all_cons, hs, ih.1]
        · simp [setup_all_collectors, hb, List.takeWhile_cons_of_pos hs,
            List.dropWhile_cons_of_pos hs, ih.2]
    | raises m =>
      have hs : setup_success c = false := by simp [setup_success, hb]
      have hs2 : ¬ setup_success c = true := by simp [hs]
      constructor
      · simp [setup_all_collectors, hb, List.all_cons, hs]
      · simp [setup_all_collectors, hb, List.takeWhile_cons_of_neg hs2,
          List.dropWhile_cons_of_neg hs2]

/-! ## Concrete collectors used by counterexamples and witnesses -/

/-- A plain successful collection result. -/
def okResult : CollectorResult :=
  { type := "probe_data", data := [], timestamp := 0, error := none }

/-- An enabled collector whose `setup()` returns `False`. -/
def probeFail : Collector :=
  { name := "a", enabled := true, setupBehavior := .returns false,
    collectBehavior := .returns okResult }

/-- An enabled, fully well-behaved collector. -/
def probeB : Collector :=
  { name := "b", enabled := true, setupBehavior := .returns true,
    collectBehavior := .returns okResult }

/-- A second enabled, fully well-behaved collector. -/
def probeC : Collector :=
  { name := "c", enabled := true, setupBehavior := .returns true,
    collectBehavior := .returns okResult }

/-- An enabled collector whose `collect()` raises. -/
def probeRaise : Collector :=
  { name := "r", enabled := true, setupBehavior := .returns true,
    collectBehavior := .raises "boom" }

/-- A registered but disabled collector. -/
def probeDisabled : Collector :=
  { name := "d", enabled := false, setupBehavior := .returns true,
    collectBehavior := .returns okResult }

/-! ## Claim C2 -/

/-- C2, as stated, is false on `CollectorManager.setup_all_collectors`
(src/src/collectors/base/manager.py): with three registered, enabled
collectors of which the first one's `setup()` returns `False`, the method
returns `False` but invokes `setup()` only on that first collector — the
other two never have `setup()` invoked, because the loop returns at the
first failure (manager.py line 52). -/
theorem C2_counterexample :
    probeFail.enabled = true ∧ probeB.enabled = true ∧ probeC.enabled = true ∧
    (setup_all_collectors [probeFail, probeB, probeC]).1 = false ∧
    (setup_all_collectors [probeFail, probeB, probeC]).2.2 = ["a"] := by
  decide

/-- C2 (amended): the base manager's `setup_all_collectors` short-circuits:
it returns `true` iff every registered collector's setup succeeds, and the
collectors whose `setup()` is invoked are exactly the leading run of
successful ones plus the first failing one — collectors after the first
failure are never attempted.  The historical modules-layer manager is the
one that does not short-circuit: it invokes `setup()` exactly once on every
enabled collector (recording `(name, success)` for each) and returns `true`
iff every enabled collector's setup succeeded. -/
theorem C2_setup_all_short_circuits (cs : List Collector) :
    ((setup_all_collectors cs).1 = true ↔ cs.all setup_success = true) ∧
    (setup_all_collectors cs).2.2
      = ((cs.takeWhile setup_success)
          ++ (cs.dropWhile setup_success).take 1).map Collector.name ∧
    (modules_setup_all_collectors cs).1
      = (cs.filter Collector.is_enabled).all setup_success ∧
    (modules_setup_all_collectors cs).2.map Prod.fst
      = (cs.filter Collector.is_enabled).map Collector.name := by
  refine ⟨by rw [(setup_all_collectors_characterization cs).1],
    (setup_all_collectors_characterization cs).2, ?_, ?_⟩
  · show ((cs.filter Collector.is_enabled).map
        (fun c => (c.name, setup_success c))).all (fun r => r.2)
        = (cs.filter Collector.is_enabled).all setup_success
    exact all_snd_map_name_success (cs.filter Collector.is_enabled)
  · show (((cs.filter Collector.is_enabled).map
        (fun c => (c.name, setup_success c))).map Prod.fst)
        = (cs.filter Collector.is_enabled).map Collector.name
    rw [List.map_map]
    rfl

/-! ## Claim C4 -/

/-- C4: with three enabled collectors of which exactly the middle one's
`collect()` raises, `collect_all_data` reports `failed_collections = 1` and
`successful_collections = 2`, and its results map holds all three entries in
iteration order — the failed one carrying `error = some e`, non-empty — so a
raising collector neither stops the iteration nor corrupts the counts. -/
theorem C4_collect_failure_isolation (c1 c2 c3 : Collector) (now : Nat)
    (r1 r3 : CollectorResult) (e : String)
    (h1e : c1.enabled = true) (h2e : c2.enabled = true) (h3e : c3.enabled = true)
    (h1 : c1.collectBehavior = CollectBehavior.returns r1)
    (h2 : c2.collectBehavior = CollectBehavior.raises e)
    (h3 : c3.collectBehavior = CollectBehavior.returns r3)
    (hne : e ≠ "") :
    (collect_all_data [c1, c2, c3] now).1.failed_collections = 1 ∧
    (collect_all_data [c1, c2, c3] now).1.successful_collections = 2 ∧
    (collect_all_data [c1, c2, c3] now).2
      = [(c1.name, r1),
         (c2.name, create_result c2.name now [] (some e)),
         (c3.name, r3)] ∧
    (create_result c2.name now [] (some e)).error = some e ∧
    e ≠ "" := by
  refine ⟨?_, ?_, ?_, rfl, hne⟩ <;>
    simp [collect_all_data, collect_step, Collector.is_enabled, h1e, h2e, h3e,
      h1, h2, h3]

/-- Witness for C4: three concrete enabled collectors, the middle one
raising `"boom"`. -/
theorem C4_collect_failure_isolation_witness :
    (collect_all_data [probeB, probeRaise, probeC] 7).1.failed_collections = 1 ∧
    (collect_all_data [probeB, probeRaise, probeC] 7).1.successful_collections
        = 2 := by
  have h := C4_collect_failure_isolation probeB probeRaise probeC 7
    okResult okResult "boom" rfl rfl rfl rfl rfl rfl (by decide)
  exact ⟨h.1, h.2.1⟩

/-! ## Claim C9 -/

/-- C9, as stated, is false on the code: a registered collector whose
`enabled` flag is false is not skipped by `setup_all_collectors` — the loop
at manager.py line 44 iterates `self.collectors.values()` without consulting
the flag, so the disabled collector's `setup()` is invoked (and, succeeding,
the collector is even enabled as a side effect). -/
theorem C9_counterexample :
    probeDisabled.enabled = false ∧
    (setup_all_collectors [probeDisabled]).2.2 = ["d"] ∧
    (setup_all_collectors [probeDisabled]).2.1 = [probeDisabled.enable] := by
  decide

/-- C9 (amended): `collect_all_data` does skip disabled collectors — its
results map lists exactly the enabled collectors, so a disabled one is
absent entirely, not marked failed — and a disabled collector stays
registered and can be re-enabled.  `setup_all_collectors`, however, does not
skip them: which collectors get `setup()` invoked is determined solely by
the setup behaviors, unchanged even if every collector is disabled first. -/
theorem C9_disabled_skipped_only_by_collect (cs : List Collector) (now : Nat)
    (c : Collector) :
    ((collect_all_data cs now).2.map Prod.fst
        = (cs.filter Collector.is_enabled).map Collector.name) ∧
    ((setup_all_collectors (cs.map Collector.disable)).2.2
        = (setup_all_collectors cs).2.2) ∧
    (Collector.is_enabled (Collector.enable (Collector.disable c)) = true) := by
  refine ⟨?_, ?_, rfl⟩
  · show ((cs.foldl (collect_step now) (0, 0, [])).2.2).map Prod.fst = _
    rw [collect_foldl_results now cs 0 0 []]
    simp [List.map_map]
  · induction cs with
    | nil => rfl
    | cons d rest ih =>
      cases hb : d.setupBehavior with
      | returns b =>
        cases b
        · simp [setup_all_collectors, Collector.disable, hb]
        · simp [setup_all_collectors, Collector.disable, hb, ih]
      | raises m => simp [setup_all_collectors, Collector.disable, hb]

/-! ## Claim C10 -/

/-- C10: an enabled collector whose `collect()` returns normally a
`CollectorResult` carrying `error = some e` is counted in
`successful_collections`, not in `failed_collections` — appending such a
collector to the registry raises the success count by one and leaves the
failure count unchanged, while its error-carrying result is still stored;
`failed_collections` counts exactly the enabled collectors whose `collect()`
raised. -/
theorem C10_error_result_counted_successful (cs : List Collector) (now : Nat)
    (c : Collector) (r : CollectorResult) (e : String)
    (hc : c.enabled = true) (hb : c.collectBehavior = CollectBehavior.returns r)
    (hr : r.error = some e) :
    (collect_all_data (cs ++ [c]) now).1.successful_collections
        = (collect_all_data cs now).1.successful_collections + 1 ∧
    (collect_all_data (cs ++ [c]) now).1.failed_collections
        = (collect_all_data cs now).1.failed_collections ∧
    (collect_all_data (cs ++ [c]) now).2
        = (collect_all_data cs now).2 ++ [(c.name, r)] ∧
    r.error = some e ∧
    (collect_all_data cs now).1.failed_collections
        = ((cs.filter Collector.is_enabled).filter
            (fun x => !collect_returns x)).length := by
  have hret : collect_returns c = true := by simp [collect_returns, hb]
  have hen : Collector.is_enabled c = true := hc
  refine ⟨?_, ?_, ?_, hr, ?_⟩
  · show ((cs ++ [c]).foldl (collect_step now) (0, 0, [])).1
        = (cs.foldl (collect_step now) (0, 0, [])).1 + 1
    rw [collect_foldl_success, collect_foldl_success]
    simp [List.filter_append, hen, hret]
  · show ((cs ++ [c]).foldl (collect_step now) (0, 0, [])).2.1
        = (cs.foldl (collect_step now) (0, 0, [])).2.1
    rw [collect_foldl_failed, collect_foldl_failed]
    simp [List.filter_append, hen, hret]
  · show ((cs ++ [c]).foldl (collect_step now) (0, 0, [])).2.2
        = (cs.foldl (collect_step now) (0, 0, [])).2.2 ++ [(c.name, r)]
    rw [collect_foldl_results, collect_foldl_results]
    simp [List.filter_append, hen, collect_entry, hb]
  · show (cs.foldl (collect_step now) (0, 0, [])).2.1 = _
    rw [collect_foldl_failed]
    simp

/-- A result that reports an internal error, as a concrete
error-carrying `CollectorResult`. -/
def errResult : CollectorResult :=
  { type := "paintcollector_data", data := [], timestamp := 0,
    error := some "lcp missing" }

/-- An enabled collector whose `collect()` returns normally with an
error-carrying result. -/
def probeErrResult : Collector :=
  { name := "p", enabled := true, setupBehavior := .returns true,
    collectBehavior := .returns errResult }

/-- Witness for C10 at a concrete error-returning collector. -/
theorem C10_error_result_counted_successful_witness :
    (collect_all_data ([] ++ [probeErrResult]) 3).1.successful_collections
        = (collect_all_data [] 3).1.successful_collections + 1 :=
  (C10_error_result_counted_successful [] 3 probeErrResult errResult
    "lcp missing" rfl rfl rfl).1

end PerfDoctor
